import Mathlib

/-! Verification of the Real-Time Stock Market Dashboard glue logic.

A shallow embedding of `src/app.py`.  Prices are modelled as exact
rationals (`ℚ`); a missing ("NaN") indicator value is `Option.none`; a
column that may be absent from the frame is an `Option` of the column's
value list; Python exceptions caught by the top-level handler become the
error branch of the per-cycle output.
-/

/-- One observation row of the provider's table: a timestamp and the
Open/High/Low/Close/Volume fields (`app.py` receives these from
`stock.history`). -/
structure Row where
  ts : Int
  Open : ℚ
  High : ℚ
  Low : ℚ
  Close : ℚ
  Volume : ℚ
deriving DecidableEq, Repr

/-- The dataframe `df`: its provider rows plus the two derived columns.
`SMA20`/`EMA20` are `none` while the column is absent; once present, the
SMA column holds one `Option ℚ` per row (`none` = NaN during warm-up)
and the EMA column one `ℚ` per row (`ewm(adjust=False)` has no warm-up
gap). -/
structure DF where
  rows : List Row
  SMA20 : Option (List (Option ℚ))
  EMA20 : Option (List ℚ)
deriving DecidableEq, Repr

/-- Arithmetic mean of a list of rationals (sum divided by length). -/
def listMean (xs : List ℚ) : ℚ := xs.sum / (xs.length : ℚ)

/-- `Series.rolling(window=w).mean()` (default `min_periods = w`): entry
`i` is the mean of entries `[i-w+1, i]` when at least `w` entries are
available, NaN (`none`) otherwise. -/
def rollingMean (w : Nat) (xs : List ℚ) : List (Option ℚ) :=
  (List.range xs.length).map (fun i =>
    if w ≤ i + 1 then some (((xs.drop (i + 1 - w)).take w).sum / (w : ℚ)) else none)

/-- The recursive tail of `Series.ewm(..., adjust=False).mean()`: given
the previous smoothed value `p`, each output is
`α·x + (1-α)·previous`. -/
def ewmRec (a p : ℚ) : List ℚ → List ℚ
  | [] => []
  | x :: xs => (a * x + (1 - a) * p) :: ewmRec a (a * x + (1 - a) * p) xs

/-- `Series.ewm(span=s, adjust=False).mean()` seeds the recursion with
the first element unchanged. -/
def ewmMean (a : ℚ) : List ℚ → List ℚ
  | [] => []
  | x :: xs => x :: ewmRec a x xs

/-- `add_indicators` (`app.py` lines 16-20): sets the `SMA20` column to
`df['Close'].rolling(window=20).mean()` and the `EMA20` column to
`df['Close'].ewm(span=20, adjust=False).mean()` (span 20 gives
`α = 2/(20+1)`), leaving the provider rows untouched. -/
def add_indicators (df : DF) : DF :=
  { rows := df.rows
    SMA20 := some (rollingMean 20 (df.rows.map Row.Close))
    EMA20 := some (ewmMean (2 / 21) (df.rows.map Row.Close)) }

/-- One plotly trace of the figure built by `plot_candlestick`: either
the candlestick trace or an overlay scatter line (its y data may hold
NaNs). -/
inductive Trace where
  | candle (x : List Int) (o h l c : List ℚ) (name : String) : Trace
  | scatter (x : List Int) (y : List (Option ℚ)) (name : String) : Trace
deriving DecidableEq, Repr

/-- `plot_candlestick` (`app.py` lines 22-46): always one candlestick
trace; then a scatter overlay for `SMA20` and for `EMA20`, each added
exactly when the column is present (`'SMA20' in df.columns`), with no
test on the column's values. -/
def plot_candlestick (df : DF) (ticker : String) : List Trace :=
  let _ := ticker
  [Trace.candle (df.rows.map Row.ts) (df.rows.map Row.Open) (df.rows.map Row.High)
      (df.rows.map Row.Low) (df.rows.map Row.Close) "Price"]
  ++ (match df.SMA20 with
      | some ys => [Trace.scatter (df.rows.map Row.ts) ys "SMA 20"]
      | none => [])
  ++ (match df.EMA20 with
      | some ys => [Trace.scatter (df.rows.map Row.ts) (ys.map some) "EMA 20"]
      | none => [])

/-- `xs.iloc[-k]` on a pandas Series: the `k`-th value from the end when
the series has at least `k` values, otherwise an `IndexError`
(modelled as `none`). -/
def ilocNeg (xs : List ℚ) (k : Nat) : Option ℚ :=
  if k ≤ xs.length then xs.get? (xs.length - k) else none

/-- `df.tail()`: the last 5 rows of the frame, every column sliced the
same way and kept in order. -/
def tailDF (df : DF) : DF :=
  { rows := df.rows.drop (df.rows.length - 5)
    SMA20 := df.SMA20.map (fun ys => ys.drop (ys.length - 5))
    EMA20 := df.EMA20.map (fun ys => ys.drop (ys.length - 5)) }

/-- `range(refresh_rate, 0, -1)` (`app.py` line 89): the countdown
values `refresh_rate, refresh_rate-1, ..., 1` in order. -/
def countdownSeq (rr : Nat) : List Nat :=
  (List.range rr).map (fun k => rr - k)

/-- The three metric tiles (`app.py` lines 71-79): latest close, its
change and percent change against the previous close, and the last
row's High and Low. -/
structure Metrics where
  latest_close : ℚ
  change : ℚ
  pct_change : ℚ
  day_high : ℚ
  day_low : ℚ
deriving DecidableEq, Repr

/-- Everything one refresh cycle renders: the empty-data warning, the
caught-exception banner, the optional metric tiles / chart / tail
table, the countdown values displayed, and whether
`st.experimental_rerun()` was reached. -/
structure Output where
  warning : Bool
  errorMsg : Option String
  metrics : Option Metrics
  chart : Option (List Trace)
  table : Option DF
  countdown : List Nat
  rerun : Bool
deriving DecidableEq, Repr

/-- A cycle's observable effects: the one call made to the data
provider (ticker, period, interval) and the rendered output. -/
structure CycleTrace where
  fetchCall : String × String × String
  out : Output
deriving DecidableEq, Repr

/-- Python's `str.upper()` as used on the ticker input. -/
def pyUpper (s : String) : String := s.map Char.toUpper

/-- The data provider behind `get_stock_data`: `yf.Ticker(t).history`
either returns a frame (possibly empty) or raises. -/
def Provider : Type := String → String → String → Except String DF

/-- The output of a cycle whose body raised an exception caught by the
top-level handler (`st.error(f"Error: {e}")`, `app.py` line 96): only
the error banner, nothing else, and no rerun. -/
def errOutput (e : String) : Output :=
  { warning := false, errorMsg := some ("Error: " ++ e), metrics := none,
    chart := none, table := none, countdown := [], rerun := false }

/-- One full run of the script body (`app.py` lines 56-96): upper-case
the ticker input, fetch with the default period `"1d"` and interval
`"1m"`, then either warn on an empty frame, or add indicators, compute
the metrics (where `iloc[-2]` raises on a 1-row frame), render chart
and tail table, count down and rerun; any raise is caught at the top
and shown as an error banner. -/
def runCycle (provider : Provider) (input : String) (rr : Nat) : CycleTrace :=
  let t := pyUpper input
  { fetchCall := (t, "1d", "1m")
    out :=
      match provider t "1d" "1m" with
      | .error e => errOutput e
      | .ok df =>
        if df.rows.isEmpty then
          { warning := true, errorMsg := none, metrics := none, chart := none,
            table := none, countdown := [], rerun := false }
        else
          let df2 := add_indicators df
          let closes := df2.rows.map Row.Close
          match ilocNeg closes 1 with
          | none => errOutput "single positional indexer is out-of-bounds"
          | some latest_close =>
            match ilocNeg closes 2 with
            | none => errOutput "single positional indexer is out-of-bounds"
            | some prev_close =>
              match ilocNeg (df2.rows.map Row.High) 1, ilocNeg (df2.rows.map Row.Low) 1 with
              | some hi, some lo =>
                let change := latest_close - prev_close
                { warning := false, errorMsg := none
                  metrics := some
                    { latest_close := latest_close, change := change,
                      pct_change := change / prev_close * 100,
                      day_high := hi, day_low := lo }
                  chart := some (plot_candlestick df2 t)
                  table := some (tailDF df2)
                  countdown := countdownSeq rr
                  rerun := true }
              | _, _ => errOutput "single positional indexer is out-of-bounds" }

/-! Helper lemmas about the indicator kernels. -/

lemma rollingMean_length (w : Nat) (xs : List ℚ) : (rollingMean w xs).length = xs.length := by
  simp [rollingMean]

lemma rollingMean_getElem? (w : Nat) (xs : List ℚ) (i : Nat) (hi : i < xs.length) :
    (rollingMean w xs)[i]? =
      some (if w ≤ i + 1 then some (((xs.drop (i + 1 - w)).take w).sum / (w : ℚ)) else none) := by
  simp [rollingMean, List.getElem?_range, hi]

lemma ewmRec_length (a p : ℚ) (xs : List ℚ) : (ewmRec a p xs).length = xs.length := by
  induction xs generalizing p with
  | nil => rfl
  | cons x rest ih => simp [ewmRec, ih]

lemma ewmRec_getElem? (a : ℚ) (xs : List ℚ) : ∀ (p : ℚ) (i : Nat), i < xs.length →
    ∃ c prev, xs[i]? = some c ∧ (p :: ewmRec a p xs)[i]? = some prev ∧
      (ewmRec a p xs)[i]? = some (a * c + (1 - a) * prev) := by
  induction xs with
  | nil => intro p i h; simp at h
  | cons x rest ih =>
    intro p i h
    cases i with
    | zero =>
      refine ⟨x, p, ?_, ?_, ?_⟩ <;> simp [ewmRec]
    | succ j =>
      have hj : j < rest.length := by simpa using h
      obtain ⟨c, prev, hc, hprev, heq⟩ := ih (a * x + (1 - a) * p) j hj
      refine ⟨c, prev, ?_, ?_, ?_⟩ <;> simp [ewmRec, hc, hprev, heq]

/-! Concrete frames used by witnesses. -/

/-- A single provider row with close 102. -/
def r100 : Row := ⟨0, 100, 105, 99, 102, 1000⟩

/-- A one-row frame as fetched (no indicator columns yet). -/
def exDF1 : DF := ⟨[r100], none, none⟩

/-- A two-row frame as fetched. -/
def exDF2 : DF := ⟨[r100, ⟨1, 102, 103, 100, 101, 1200⟩], none, none⟩

/-- A twenty-row frame as fetched, closes 1,2,...,20. -/
def exDF20 : DF :=
  ⟨(List.range 20).map (fun k => ⟨(k : Int), (k : ℚ), (k : ℚ), (k : ℚ), (k : ℚ) + 1, 1⟩),
   none, none⟩

/-- A frame with the same Close column as `exDF1` but different
timestamp and Open/High/Low/Volume values. -/
def exDFalt : DF := ⟨[⟨5, 1, 2, 3, 102, 4⟩], none, none⟩

/-! Claims about the indicator computation. -/

/-- Claim C1: For every series with a Close column, `add_indicators` yields an
SMA20 column of the series' length whose entry at row `i` is the arithmetic
mean of Close over rows `[i-19, i]` when `i ≥ 19`, and is missing when
`i < 19`; in particular a series shorter than 20 rows (all of whose row
indices are `< 19`) gets only missing SMA20 values, without failing. -/
theorem sma20_windowed_mean (df : DF) (i : Nat) (hi : i < df.rows.length) :
    ∃ s, (add_indicators df).SMA20 = some s ∧ s.length = df.rows.length ∧
      (19 ≤ i →
        s[i]? = some (some (listMean (((df.rows.map Row.Close).drop (i - 19)).take 20)))) ∧
      (i < 19 → s[i]? = some none) := by
  have hi' : i < (df.rows.map Row.Close).length := by simpa using hi
  refine ⟨rollingMean 20 (df.rows.map Row.Close), rfl,
    by simpa using rollingMean_length 20 (df.rows.map Row.Close), ?_, ?_⟩
  · intro h19
    rw [rollingMean_getElem? 20 _ i hi', if_pos (by omega : 20 ≤ i + 1)]
    have hlen : (((df.rows.map Row.Close).drop (i - 19)).take 20).length = 20 := by
      simp only [List.length_take, List.length_drop, List.length_map]
      omega
    have harg : i + 1 - 20 = i - 19 := by omega
    rw [harg, listMean, hlen]
  · intro h19
    rw [rollingMean_getElem? 20 _ i hi', if_neg (by omega)]

/-- Witness for `sma20_windowed_mean`: the 20-row frame `exDF20` at row 19. -/
theorem sma20_windowed_mean_witness :
    19 < exDF20.rows.length ∧
    (∃ s, (add_indicators exDF20).SMA20 = some s ∧ s.length = exDF20.rows.length ∧
      (19 ≤ 19 →
        s[19]? = some (some (listMean (((exDF20.rows.map Row.Close).drop (19 - 19)).take 20)))) ∧
      (19 < 19 → s[19]? = some none)) :=
  ⟨by decide, sma20_windowed_mean exDF20 19 (by decide)⟩

/-- Claim C2: For every non-empty series with a Close column, `add_indicators`
yields an EMA20 column defined at every row (same length as the series, no
warm-up gap), with `EMA20[0] = Close[0]` and
`EMA20[i] = (2/21)·Close[i] + (19/21)·EMA20[i-1]` for every `i ≥ 1`. -/
theorem ema20_recurrence (df : DF) (hne : df.rows ≠ []) :
    ∃ e, (add_indicators df).EMA20 = some e ∧ e.length = df.rows.length ∧
      e[0]? = (df.rows.map Row.Close)[0]? ∧
      ∀ i, 1 ≤ i → i < df.rows.length →
        ∃ c p, (df.rows.map Row.Close)[i]? = some c ∧ e[i - 1]? = some p ∧
          e[i]? = some (2 / 21 * c + 19 / 21 * p) := by
  have hmap : df.rows.map Row.Close ≠ [] := by simpa using hne
  obtain ⟨x, rest, hxr⟩ := List.exists_cons_of_ne_nil hmap
  have hlen : rest.length + 1 = df.rows.length := by
    have := congrArg List.length hxr
    simpa using this.symm
  refine ⟨ewmMean (2 / 21) (df.rows.map Row.Close), rfl, ?_, ?_, ?_⟩
  · rw [hxr]
    simp [ewmMean, ewmRec_length, hlen]
  · rw [hxr]
    simp [ewmMean]
  · intro i h1 hi
    obtain ⟨j, rfl⟩ : ∃ j, i = j + 1 := ⟨i - 1, by omega⟩
    have hj : j < rest.length := by omega
    obtain ⟨c, prev, hc, hprev, heq⟩ := ewmRec_getElem? (2 / 21) rest x j hj
    refine ⟨c, prev, ?_, ?_, ?_⟩
    · rw [hxr]
      simpa using hc
    · rw [hxr]
      show (ewmMean (2 / 21) (x :: rest))[j]? = some prev
      simpa [ewmMean] using hprev
    · rw [hxr]
      show (ewmMean (2 / 21) (x :: rest))[j + 1]? = some (2 / 21 * c + 19 / 21 * prev)
      have h21 : (1 : ℚ) - 2 / 21 = 19 / 21 := by norm_num
      simpa [ewmMean, h21] using heq

/-- Witness for `ema20_recurrence`: the two-row frame `exDF2`. -/
theorem ema20_recurrence_witness :
    exDF2.rows ≠ [] ∧
    (∃ e, (add_indicators exDF2).EMA20 = some e ∧ e.length = exDF2.rows.length ∧
      e[0]? = (exDF2.rows.map Row.Close)[0]? ∧
      ∀ i, 1 ≤ i → i < exDF2.rows.length →
        ∃ c p, (exDF2.rows.map Row.Close)[i]? = some c ∧ e[i - 1]? = some p ∧
          e[i]? = some (2 / 21 * c + 19 / 21 * p)) :=
  ⟨by decide, ema20_recurrence exDF2 (by decide)⟩

/-- Claim C6: `add_indicators` is idempotent: applying it to the already
augmented frame recomputes both columns from the unchanged Close column,
yielding the identical frame (no compounding). -/
theorem add_indicators_idempotent (df : DF) :
    add_indicators (add_indicators df) = add_indicators df := rfl

/-- Claim C7: `add_indicators` is a pure function of the Close column: it
leaves the provider rows (timestamps, Open/High/Low/Close/Volume values and
their order) unchanged, and two frames with the same Close column receive
identical SMA20 and EMA20 columns. -/
theorem add_indicators_pure_close_only (df₁ df₂ : DF)
    (h : df₁.rows.map Row.Close = df₂.rows.map Row.Close) :
    (add_indicators df₁).rows = df₁.rows ∧
    (add_indicators df₁).SMA20 = (add_indicators df₂).SMA20 ∧
    (add_indicators df₁).EMA20 = (add_indicators df₂).EMA20 :=
  ⟨rfl, by simp [add_indicators, h], by simp [add_indicators, h]⟩

/-- Witness for `add_indicators_pure_close_only`: `exDFalt` and `exDF1`
share the Close column but differ everywhere else. -/
theorem add_indicators_pure_close_only_witness :
    exDFalt.rows.map Row.Close = exDF1.rows.map Row.Close ∧
    ((add_indicators exDFalt).rows = exDFalt.rows ∧
     (add_indicators exDFalt).SMA20 = (add_indicators exDF1).SMA20 ∧
     (add_indicators exDFalt).EMA20 = (add_indicators exDF1).EMA20) :=
  ⟨by decide, add_indicators_pure_close_only exDFalt exDF1 (by decide)⟩

/-! The trace count of the chart (claim C8). -/

/-- The trace count the spec describes, stated from the spec's words for
comparison with `plot_candlestick`: one candlestick plus one overlay per
indicator column that is present AND not entirely undefined over the
visible range. -/
def specTraceCount (df : DF) : Nat :=
  1 + (match df.SMA20 with
       | some ys => if ys.any (fun v => v.isSome) then 1 else 0
       | none => 0)
    + (match df.EMA20 with
       | some ys => if ys.isEmpty then 0 else 1
       | none => 0)

/-- Claim C8, counterexample: On the augmented one-row frame the SMA20 column
is present but entirely undefined, yet `plot_candlestick` still adds its
overlay (the guard tests only column presence): the figure has 3 traces
where the claim demands 2. -/
theorem overlay_allnan_not_omitted_cex :
    (plot_candlestick (add_indicators exDF1) "AAPL").length = 3 ∧
    specTraceCount (add_indicators exDF1) = 2 ∧
    (plot_candlestick (add_indicators exDF1) "AAPL").length ≠
      specTraceCount (add_indicators exDF1) := by
  refine ⟨?_, ?_, ?_⟩ <;> decide

/-- Claim C8, amended: The chart holds exactly one candlestick trace plus one
overlay line per indicator column that is *present*, with no regard to
whether its values are defined: an entirely undefined column still
contributes its overlay. -/
theorem trace_count_counts_present_columns (df : DF) (t : String) :
    (plot_candlestick df t).length =
      1 + (if df.SMA20.isSome then 1 else 0) + (if df.EMA20.isSome then 1 else 0) := by
  unfold plot_candlestick
  cases df.SMA20 <;> cases df.EMA20 <;> simp

/-! Claims about the refresh cycle. -/

/-- Case analysis on one cycle's output: it is an error banner, the
empty-data warning, or a fully successful render that counted down and
rerun. -/
lemma runCycle_out_shape (p : Provider) (input : String) (rr : Nat) :
    (∃ e, (runCycle p input rr).out = errOutput e) ∨
    ((runCycle p input rr).out =
      { warning := true, errorMsg := none, metrics := none, chart := none,
        table := none, countdown := [], rerun := false }) ∨
    ((runCycle p input rr).out.warning = false ∧ (runCycle p input rr).out.errorMsg = none ∧
     (runCycle p input rr).out.countdown = countdownSeq rr ∧
     (runCycle p input rr).out.rerun = true) := by
  unfold runCycle
  dsimp only
  split
  · exact Or.inl ⟨_, rfl⟩
  · split
    · exact Or.inr (Or.inl rfl)
    · split
      · exact Or.inl ⟨_, rfl⟩
      · split
        · exact Or.inl ⟨_, rfl⟩
        · split
          · exact Or.inr (Or.inr ⟨rfl, rfl, rfl, rfl⟩)
          · exact Or.inl ⟨_, rfl⟩

/-- Claim C3: When the fetched frame has zero rows, the cycle shows the
warning and nothing else: no metrics, no chart, no tail table, no error
banner, no countdown, no rerun — the cycle ends there. -/
theorem empty_frame_skips_cycle (p : Provider) (input : String) (rr : Nat) (df : DF)
    (hfetch : p (pyUpper input) "1d" "1m" = .ok df) (hempty : df.rows = []) :
    (runCycle p input rr).out.warning = true ∧
    (runCycle p input rr).out.errorMsg = none ∧
    (runCycle p input rr).out.metrics = none ∧
    (runCycle p input rr).out.chart = none ∧
    (runCycle p input rr).out.table = none ∧
    (runCycle p input rr).out.countdown = [] ∧
    (runCycle p input rr).out.rerun = false := by
  simp [runCycle, hfetch, hempty]

/-- Witness for `empty_frame_skips_cycle`: a provider returning the empty
frame. -/
theorem empty_frame_skips_cycle_witness :
    (runCycle (fun _ _ _ => Except.ok (⟨[], none, none⟩ : DF)) "aapl" 15).out.warning = true ∧
    (runCycle (fun _ _ _ => Except.ok (⟨[], none, none⟩ : DF)) "aapl" 15).out.errorMsg = none ∧
    (runCycle (fun _ _ _ => Except.ok (⟨[], none, none⟩ : DF)) "aapl" 15).out.metrics = none ∧
    (runCycle (fun _ _ _ => Except.ok (⟨[], none, none⟩ : DF)) "aapl" 15).out.chart = none ∧
    (runCycle (fun _ _ _ => Except.ok (⟨[], none, none⟩ : DF)) "aapl" 15).out.table = none ∧
    (runCycle (fun _ _ _ => Except.ok (⟨[], none, none⟩ : DF)) "aapl" 15).out.countdown = [] ∧
    (runCycle (fun _ _ _ => Except.ok (⟨[], none, none⟩ : DF)) "aapl" 15).out.rerun = false :=
  empty_frame_skips_cycle (fun _ _ _ => Except.ok (⟨[], none, none⟩ : DF)) "aapl" 15
    ⟨[], none, none⟩ rfl rfl

/-- Claim C4: When the fetched frame has exactly one row, the metrics block is
unguarded: `df['Close'].iloc[-2]` raises, the top-level handler turns the
raise into an error banner, and no metrics, chart or table are rendered for
that cycle (nor any countdown or rerun). -/
theorem one_row_frame_crashes (p : Provider) (input : String) (rr : Nat) (df : DF)
    (hfetch : p (pyUpper input) "1d" "1m" = .ok df) (hone : df.rows.length = 1) :
    (runCycle p input rr).out.errorMsg.isSome = true ∧
    (runCycle p input rr).out.metrics = none ∧
    (runCycle p input rr).out.chart = none ∧
    (runCycle p input rr).out.table = none ∧
    (runCycle p input rr).out.countdown = [] ∧
    (runCycle p input rr).out.rerun = false := by
  obtain ⟨r, hr⟩ := List.length_eq_one.1 hone
  simp [runCycle, hfetch, hr, add_indicators, ilocNeg, errOutput]

/-- Witness for `one_row_frame_crashes`: a provider returning the one-row
frame `exDF1`. -/
theorem one_row_frame_crashes_witness :
    (runCycle (fun _ _ _ => Except.ok exDF1) "TSLA" 15).out.errorMsg.isSome = true ∧
    (runCycle (fun _ _ _ => Except.ok exDF1) "TSLA" 15).out.metrics = none ∧
    (runCycle (fun _ _ _ => Except.ok exDF1) "TSLA" 15).out.chart = none ∧
    (runCycle (fun _ _ _ => Except.ok exDF1) "TSLA" 15).out.table = none ∧
    (runCycle (fun _ _ _ => Except.ok exDF1) "TSLA" 15).out.countdown = [] ∧
    (runCycle (fun _ _ _ => Except.ok exDF1) "TSLA" 15).out.rerun = false :=
  one_row_frame_crashes (fun _ _ _ => Except.ok exDF1) "TSLA" 15 exDF1 rfl rfl

/-- Claim C9, counterexample: A cycle that ends in the empty-data warning does
NOT schedule the next cycle: the countdown loop and
`st.experimental_rerun()` sit inside the non-empty `else` branch, so the
warning cycle shows no countdown and never reruns. -/
theorem warning_halts_loop_cex :
    (runCycle (fun _ _ _ => Except.ok (⟨[], none, none⟩ : DF)) "MSFT" 15).out.warning = true ∧
    ¬((runCycle (fun _ _ _ => Except.ok (⟨[], none, none⟩ : DF)) "MSFT" 15).out.rerun = true ∧
      (runCycle (fun _ _ _ => Except.ok (⟨[], none, none⟩ : DF)) "MSFT" 15).out.countdown =
        countdownSeq 15) := by
  decide

/-- Claim C9, amended: Errors and warnings DO halt the refresh loop: a cycle
that ends in a provider-error banner or the empty-data warning performs no
countdown and never triggers a rerun; only a fully successful cycle reruns,
and it does so after the full countdown `rr, rr-1, ..., 1`. -/
theorem failed_cycle_never_reruns (p : Provider) (input : String) (rr : Nat) :
    ((runCycle p input rr).out.warning = true ∨
        (runCycle p input rr).out.errorMsg.isSome = true →
      (runCycle p input rr).out.countdown = [] ∧ (runCycle p input rr).out.rerun = false) ∧
    ((runCycle p input rr).out.rerun = true →
      (runCycle p input rr).out.countdown = countdownSeq rr) := by
  rcases runCycle_out_shape p input rr with ⟨e, he⟩ | he | ⟨h1, h2, h3, h4⟩
  · rw [he]
    simp [errOutput]
  · rw [he]
    simp
  · refine ⟨?_, fun _ => h3⟩
    intro h
    rcases h with h | h
    · rw [h1] at h
      exact absurd h (by simp)
    · rw [h2] at h
      exact absurd h (by simp)

/-- Witness for `failed_cycle_never_reruns`: a provider that raises. -/
theorem failed_cycle_never_reruns_witness :
    (runCycle (fun _ _ _ => Except.error "boom") "IBM" 7).out.countdown = [] ∧
    (runCycle (fun _ _ _ => Except.error "boom") "IBM" 7).out.rerun = false :=
  (failed_cycle_never_reruns (fun _ _ _ => Except.error "boom") "IBM" 7).1 (Or.inr (by decide))

/-- Claim C10: The ticker input is never validated, only upper-cased: every
cycle calls the data fetch with exactly the upper-cased input and the
defaults `period="1d"`, `interval="1m"` — for every input string, the empty
string included — and a bad ticker surfaces only downstream, as the
empty-frame warning or as the provider's error banner. -/
theorem ticker_unvalidated_uppercased (p : Provider) (input : String) (rr : Nat) :
    (runCycle p input rr).fetchCall = (pyUpper input, "1d", "1m") ∧
    (∀ e, p (pyUpper input) "1d" "1m" = .error e →
      (runCycle p input rr).out.errorMsg = some ("Error: " ++ e)) ∧
    (∀ df, p (pyUpper input) "1d" "1m" = .ok df → df.rows = [] →
      (runCycle p input rr).out.warning = true) := by
  refine ⟨rfl, ?_, ?_⟩
  · intro e he
    simp [runCycle, he, errOutput]
  · intro df hdf hrows
    simp [runCycle, hdf, hrows]

/-- Witness for `ticker_unvalidated_uppercased`: the empty input string is
passed through unvalidated (upper-cased to itself) and the provider's
failure is rendered as the error banner. -/
theorem ticker_unvalidated_uppercased_witness :
    (runCycle (fun _ _ _ => Except.error "no data") "" 15).fetchCall =
      (pyUpper "", "1d", "1m") ∧
    (runCycle (fun _ _ _ => Except.error "no data") "" 15).out.errorMsg =
      some ("Error: " ++ "no data") :=
  ⟨(ticker_unvalidated_uppercased (fun _ _ _ => Except.error "no data") "" 15).1,
   (ticker_unvalidated_uppercased (fun _ _ _ => Except.error "no data") "" 15).2.1 "no data" rfl⟩

/-- A negative pandas index within range always yields a value. -/
lemma ilocNeg_isSome (xs : List ℚ) (k : Nat) (hk : 1 ≤ k) (h : k ≤ xs.length) :
    ∃ v, ilocNeg xs k = some v := by
  unfold ilocNeg
  rw [if_pos h]
  cases hx : xs.get? (xs.length - k) with
  | none =>
    have := List.get?_eq_none.1 hx
    omega
  | some v => exact ⟨v, rfl⟩

/-- A two-row frame whose previous close (second-to-last Close) is
exactly 0. -/
def exDFzero : DF := ⟨[⟨0, 1, 2, 1, 0, 10⟩, ⟨1, 1, 60, 1, 50, 10⟩], none, none⟩

/-- Claim C5, counterexample: on a two-row frame whose previous close is
exactly 0 the unguarded division is reached, yet the cycle does not crash:
no error banner is rendered (float division by zero does not raise under
numpy's default error state), the metric tiles are produced, and the cycle
counts down and reruns like any successful one. -/
theorem zero_prev_close_no_crash_cex :
    ilocNeg (exDFzero.rows.map Row.Close) 2 = some 0 ∧
    (runCycle (fun _ _ _ => Except.ok exDFzero) "NVDA" 15).out.errorMsg.isSome = false ∧
    (runCycle (fun _ _ _ => Except.ok exDFzero) "NVDA" 15).out.metrics.isSome = true ∧
    (runCycle (fun _ _ _ => Except.ok exDFzero) "NVDA" 15).out.rerun = true := by
  decide

/-- Claim C5, amended: for every series with at least 2 rows whose previous
close is exactly 0, the percent-change division is indeed unguarded, but it
does not raise: the cycle completes normally — no error banner, no warning,
metrics, chart and tail table all rendered (the percent change being the
non-finite float value numpy produces), and the countdown and rerun proceed
as on any successful cycle. -/
theorem zero_prev_close_does_not_crash (p : Provider) (input : String) (rr : Nat) (df : DF)
    (hfetch : p (pyUpper input) "1d" "1m" = .ok df) (h2 : 2 ≤ df.rows.length)
    (hzero : ilocNeg (df.rows.map Row.Close) 2 = some 0) :
    (runCycle p input rr).out.errorMsg = none ∧
    (runCycle p input rr).out.warning = false ∧
    (runCycle p input rr).out.metrics.isSome = true ∧
    (runCycle p input rr).out.chart.isSome = true ∧
    (runCycle p input rr).out.table.isSome = true ∧
    (runCycle p input rr).out.countdown = countdownSeq rr ∧
    (runCycle p input rr).out.rerun = true := by
  have hEmpty : df.rows.isEmpty = false := by
    cases h : df.rows with
    | nil => rw [h] at h2; simp at h2
    | cons a l => simp
  have h1 : 1 ≤ (df.rows.map Row.Close).length := by simp; omega
  obtain ⟨lc, hlc⟩ := ilocNeg_isSome (df.rows.map Row.Close) 1 (by omega) h1
  obtain ⟨hv, hhi⟩ := ilocNeg_isSome (df.rows.map Row.High) 1 (by omega) (by simp; omega)
  obtain ⟨lv, hlo⟩ := ilocNeg_isSome (df.rows.map Row.Low) 1 (by omega) (by simp; omega)
  simp [runCycle, hfetch, hEmpty, add_indicators, hlc, hzero, hhi, hlo]

/-- Witness for `zero_prev_close_does_not_crash`: the provider returns the
two-row frame `exDFzero`, whose previous close is 0. -/
theorem zero_prev_close_does_not_crash_witness :
    (runCycle (fun _ _ _ => Except.ok exDFzero) "AMD" 5).out.errorMsg = none ∧
    (runCycle (fun _ _ _ => Except.ok exDFzero) "AMD" 5).out.warning = false ∧
    (runCycle (fun _ _ _ => Except.ok exDFzero) "AMD" 5).out.metrics.isSome = true ∧
    (runCycle (fun _ _ _ => Except.ok exDFzero) "AMD" 5).out.chart.isSome = true ∧
    (runCycle (fun _ _ _ => Except.ok exDFzero) "AMD" 5).out.table.isSome = true ∧
    (runCycle (fun _ _ _ => Except.ok exDFzero) "AMD" 5).out.countdown = countdownSeq 5 ∧
    (runCycle (fun _ _ _ => Except.ok exDFzero) "AMD" 5).out.rerun = true :=
  zero_prev_close_does_not_crash (fun _ _ _ => Except.ok exDFzero) "AMD" 5 exDFzero
    rfl (by decide) (by decide)
